import Mathlib

/-!
# Verification of the Project Genesis "Digital Dragnet" scoring engine

Shallow embedding of `src/backend/dragnet.py` (scoring, classification,
explanation), the result-sorting step of `src/backend/batch_dragnet.py` /
`src/backend/app.py`, and their reporting of rounded scores.

Modelling conventions:
* Python numbers (floats and ints flowing through `/`, `*`, `min`, `round`)
  are modelled as exact rationals `ℚ`; the claims under study are exact
  arithmetic identities, bounds and orderings, not float rounding artefacts.
* Python's builtin `round` uses banker's rounding (round half to even);
  `round(x, 1)` is modelled by `pyRound1`.
* Python's `list.sort(key=..., reverse=True)` is a stable sort by the key,
  descending; it is modelled by `List.mergeSort` (stable) with the
  descending-score comparison.
* Pure display strings built with `f"..."` float formatting (`raw_value`,
  `weight`, `formula` in the breakdown dict) are presentation only and are
  not part of any claim; the numeric values they display are kept as `ℚ`
  fields.
-/

namespace Dragnet

/-- `ALPHA = 0.50`, the paved-area weight (dragnet.py line 94). -/
def ALPHA : ℚ := 1/2

/-- `BETA = 0.30`, the trailer-count weight (dragnet.py line 98). -/
def BETA : ℚ := 3/10

/-- `GAMMA = 0.20`, the gate-nodes weight (dragnet.py line 102). -/
def GAMMA : ℚ := 1/5

/-- `MAX_TRAILER_BENCHMARK = 300` (dragnet.py line 107). -/
def MAX_TRAILER_BENCHMARK : ℚ := 300

/-- `MAX_GATE_BENCHMARK = 5` (dragnet.py line 108). -/
def MAX_GATE_BENCHMARK : ℚ := 5

/-- Embedding of `calculate_velocity_score` (dragnet.py lines 173-212). -/
def calculate_velocity_score (paved_area trailer_count gate_nodes : ℚ) : ℚ :=
  let norm_trailers := min ((trailer_count / MAX_TRAILER_BENCHMARK) * 100) 100
  let norm_gates := min ((gate_nodes / MAX_GATE_BENCHMARK) * 100) 100
  let norm_paved := paved_area
  (ALPHA * norm_paved) + (BETA * norm_trailers) + (GAMMA * norm_gates)

/-- The classification dict returned by `classify_facility`. -/
structure Classification where
  label : String
  emoji : String
  tier : String
  description : String
  expected_roi : String
  action : String
deriving DecidableEq, Repr

/-- The `score >= 80` record of `classify_facility` (dragnet.py lines 225-232). -/
def whaleClassification : Classification :=
  { label := "WHALE"
    emoji := "🐋"
    tier := "HIGH PRIORITY"
    description := "Enterprise-grade facility with massive Heavy Water friction"
    expected_roi := "$500K+ annually"
    action := "Immediate outreach - send pre-built Digital Twin demo" }

/-- The `score >= 50` record of `classify_facility` (dragnet.py lines 234-241). -/
def standardClassification : Classification :=
  { label := "STANDARD"
    emoji := "🎯"
    tier := "STANDARD PROSPECT"
    description := "Good automation candidate with solid ROI potential"
    expected_roi := "$50K-$500K annually"
    action := "Add to nurture campaign, send value proposition" }

/-- The fallback record of `classify_facility` (dragnet.py lines 243-250). -/
def lowClassification : Classification :=
  { label := "LOW"
    emoji := "📉"
    tier := "LOW PRIORITY"
    description := "Small operation or limited infrastructure"
    expected_roi := "Limited ROI potential"
    action := "Monitor for growth, deprioritize sales effort" }

/-- Embedding of `classify_facility` (dragnet.py lines 214-250). -/
def classify_facility (score : ℚ) : Classification :=
  if 80 ≤ score then whaleClassification
  else if 50 ≤ score then standardClassification
  else lowClassification

/-- Python's builtin `round` to an integer: round half to even. -/
def pyRoundInt (y : ℚ) : ℤ :=
  let n := ⌊y⌋
  let f := y - n
  if f < 1/2 then n
  else if 1/2 < f then n + 1
  else if n % 2 = 0 then n else n + 1

/-- Python's `round(x, 1)`: round to one decimal place, ties to even. -/
def pyRound1 (x : ℚ) : ℚ := (pyRoundInt (10 * x) : ℚ) / 10

/-- Embedding of `_interpret_paved` (dragnet.py lines 293-302). -/
def interpret_paved (pct : ℚ) : String :=
  if 90 ≤ pct then "Mega DC - Maximum land utilization, high complexity"
  else if 70 ≤ pct then "Standard DC - Good operational footprint"
  else if 50 ≤ pct then "Mixed-use - Room for optimization"
  else "Limited paved area - May be office-heavy"

/-- Embedding of `_interpret_trailers` (dragnet.py lines 304-313). -/
def interpret_trailers (count : ℚ) : String :=
  if 200 ≤ count then "WHALE territory - Major distribution hub"
  else if 100 ≤ count then "High-volume facility - Significant throughput"
  else if 50 ≤ count then "Regional depot - Moderate activity"
  else "Small operation - Limited scale"

/-- Embedding of `_interpret_gates` (dragnet.py lines 315-322). -/
def interpret_gates (count : ℚ) : String :=
  if 4 ≤ count then "Complex multi-flow - High orchestration needs"
  else if 2 ≤ count then "Standard facility - Some traffic separation"
  else "Single entry point - Simple flow"

/-- The `paved_area` entry of the breakdown dict (dragnet.py lines 269-274).
`raw_value` holds the number displayed by the `f"{paved_area:.1f}%"` string. -/
structure PavedComponent where
  raw_value : ℚ
  contribution : ℚ
  interpretation : String
deriving DecidableEq, Repr

/-- The `trailer_count` entry of the breakdown dict (dragnet.py lines 275-281).
`normalized` holds the number displayed by the `f"{trailer_norm:.1f}/100"` string. -/
structure TrailerComponent where
  raw_value : ℚ
  normalized : ℚ
  contribution : ℚ
  interpretation : String
deriving DecidableEq, Repr

/-- The `gate_nodes` entry of the breakdown dict (dragnet.py lines 282-288). -/
structure GateComponent where
  raw_value : ℚ
  normalized : ℚ
  contribution : ℚ
  interpretation : String
deriving DecidableEq, Repr

/-- The dict returned by `explain_score_breakdown` (dragnet.py lines 266-291);
the `formula` entry is a pure display string and is not modelled. -/
structure Breakdown where
  total_score : ℚ
  paved_area : PavedComponent
  trailer_count : TrailerComponent
  gate_nodes : GateComponent
deriving DecidableEq, Repr

/-- Embedding of `explain_score_breakdown` (dragnet.py lines 252-291). -/
def explain_score_breakdown (paved_area trailer_count gate_nodes score : ℚ) : Breakdown :=
  let paved_contribution := ALPHA * paved_area
  let trailer_norm := min ((trailer_count / MAX_TRAILER_BENCHMARK) * 100) 100
  let trailer_contribution := BETA * trailer_norm
  let gate_norm := min ((gate_nodes / MAX_GATE_BENCHMARK) * 100) 100
  let gate_contribution := GAMMA * gate_norm
  { total_score := pyRound1 score
    paved_area :=
      { raw_value := paved_area
        contribution := pyRound1 paved_contribution
        interpretation := interpret_paved paved_area }
    trailer_count :=
      { raw_value := trailer_count
        normalized := trailer_norm
        contribution := pyRound1 trailer_contribution
        interpretation := interpret_trailers trailer_count }
    gate_nodes :=
      { raw_value := gate_nodes
        normalized := gate_norm
        contribution := pyRound1 gate_contribution
        interpretation := interpret_gates gate_nodes } }

/-- The fields of the dict returned by `run_dragnet` (dragnet.py lines 379-390)
that depend on the measurements: the reported `score` is the raw score rounded
to one decimal, while `classification` is computed from the raw score. -/
structure DragnetReport where
  score : ℚ
  classification : Classification
  trailers : ℚ
  paved_pct : ℚ
  gates : ℚ
deriving DecidableEq, Repr

/-- Embedding of the result assembly of `run_dragnet` (dragnet.py lines 355-390),
as a function of the three measurements produced by the mock CV pipeline. -/
def run_dragnet_report (paved_area trailer_count gate_nodes : ℚ) : DragnetReport :=
  let score := calculate_velocity_score paved_area trailer_count gate_nodes
  { score := pyRound1 score
    classification := classify_facility score
    trailers := trailer_count
    paved_pct := pyRound1 paved_area
    gates := gate_nodes }

/-- A per-facility entry of the `results` list built by `batch_process`
(app.py lines 244-255): `score` is the rounded score, `classification` the
tier string computed from the raw score. -/
structure BatchItem where
  name : String
  score : ℚ
  classification : String
  emoji : String
deriving DecidableEq, Repr

/-- Embedding of one iteration of the `batch_process` loop (app.py lines
232-255), as a function of the facility name and its three measurements. -/
def batch_item (name : String) (paved_area trailer_count gate_nodes : ℚ) : BatchItem :=
  let score := calculate_velocity_score paved_area trailer_count gate_nodes
  let classification := classify_facility score
  { name := name
    score := pyRound1 score
    classification := classification.tier
    emoji := classification.emoji }

/-- Embedding of `results.sort(key=lambda x: x['score'], reverse=True)`
(app.py line 258; batch_dragnet.py line 139): Python's sort is stable and,
with `reverse=True`, orders by the key descending; modelled by the stable
`List.mergeSort` under the descending-score comparison. -/
def sort_results (results : List BatchItem) : List BatchItem :=
  results.mergeSort (fun a b => decide (b.score ≤ a.score))

/-- The summary tier counts of `batch_process` (app.py lines 261-263),
computed from the `score` fields of the result items (i.e. rounded scores). -/
def batch_summary (results : List BatchItem) : Nat × Nat × Nat :=
  ((results.filter (fun r => decide (80 ≤ r.score))).length,
   (results.filter (fun r => decide (50 ≤ r.score ∧ r.score < 80))).length,
   (results.filter (fun r => decide (r.score < 50))).length)

/-- The `score` and `classification` fields of the `/api/score` response
(app.py lines 185-190): the rounded score together with the tier string of
the classification computed from the unrounded score. -/
def get_score_response (paved_area trailer_count gate_nodes : ℚ) : ℚ × String :=
  let score := calculate_velocity_score paved_area trailer_count gate_nodes
  (pyRound1 score, (classify_facility score).tier)

/-- The normalization `min((value / benchmark) * 100, 100)`, inlined at
dragnet.py lines 200 and 204 and named `normalize` in spec section 4.1. -/
def normalize (value benchmark : ℚ) : ℚ := min ((value / benchmark) * 100) 100

end Dragnet

namespace Dragnet

lemma calculate_velocity_score_eq (p t g : ℚ) :
    calculate_velocity_score p t g =
      ALPHA * p + BETA * normalize t MAX_TRAILER_BENCHMARK +
        GAMMA * normalize g MAX_GATE_BENCHMARK := rfl

lemma whale_ne_standard : whaleClassification ≠ standardClassification := by
  intro h
  exact absurd (congrArg Classification.label h) (by simp [whaleClassification,
    standardClassification])

lemma whale_ne_low : whaleClassification ≠ lowClassification := by
  intro h
  exact absurd (congrArg Classification.label h) (by simp [whaleClassification,
    lowClassification])

lemma standard_ne_low : standardClassification ≠ lowClassification := by
  intro h
  exact absurd (congrArg Classification.label h) (by simp [standardClassification,
    lowClassification])

lemma classify_facility_of_whale {s : ℚ} (h : 80 ≤ s) :
    classify_facility s = whaleClassification := by
  simp [classify_facility, h]

lemma classify_facility_of_standard {s : ℚ} (h1 : 50 ≤ s) (h2 : s < 80) :
    classify_facility s = standardClassification := by
  simp [classify_facility, h1, not_le.mpr h2]

lemma classify_facility_of_low {s : ℚ} (h : s < 50) :
    classify_facility s = lowClassification := by
  have h80 : ¬ (80 ≤ s) := not_le.mpr (h.trans (by norm_num))
  simp [classify_facility, h80, not_le.mpr h]

lemma normalize_nonneg {x b : ℚ} (hx : 0 ≤ x) (hb : 0 < b) : 0 ≤ normalize x b :=
  le_min (by positivity) (by norm_num)

lemma normalize_le_100 (x b : ℚ) : normalize x b ≤ 100 := min_le_right _ _

/-- C1: with the default weights (alpha = 0.50, beta = 0.30, gamma = 0.20)
and benchmarks (300 trailers, 5 gates), `calculate_velocity_score` returns
`alpha * norm_paved + beta * norm_trailers + gamma * norm_gates`, where
`norm_trailers = min((trailer_count/300)*100, 100)`,
`norm_gates = min((gate_count/5)*100, 100)`, and `norm_paved` is the
paved-area percentage passed through unmodified (not clamped). -/
theorem C1_weighted_sum_formula (paved_area_pct trailer_count gate_count : ℚ) :
    calculate_velocity_score paved_area_pct trailer_count gate_count =
      (1/2) * paved_area_pct
        + (3/10) * min ((trailer_count / 300) * 100) 100
        + (1/5) * min ((gate_count / 5) * 100) 100 := by
  simp only [calculate_velocity_score, ALPHA, BETA, GAMMA, MAX_TRAILER_BENCHMARK,
    MAX_GATE_BENCHMARK]

/-- C2: `classify_facility` maps every score to exactly one of three fixed
static records, with tier boundaries inclusive on the lower bound: the WHALE
record exactly when `score ≥ 80`, the STANDARD record exactly when
`50 ≤ score < 80`, the LOW record exactly when `score < 50`; in particular
`classify(80)` is WHALE, `classify(79.999)` is STANDARD and
`classify(49.999)` is LOW. -/
theorem C2_classification_partition :
    (∀ s : ℚ,
      (classify_facility s = whaleClassification ↔ 80 ≤ s) ∧
      (classify_facility s = standardClassification ↔ 50 ≤ s ∧ s < 80) ∧
      (classify_facility s = lowClassification ↔ s < 50)) ∧
    classify_facility 80 = whaleClassification ∧
    classify_facility 79.999 = standardClassification ∧
    classify_facility 49.999 = lowClassification ∧
    whaleClassification.label = "WHALE" ∧
    whaleClassification.tier = "HIGH PRIORITY" ∧
    standardClassification.label = "STANDARD" ∧
    standardClassification.tier = "STANDARD PROSPECT" ∧
    lowClassification.label = "LOW" ∧
    lowClassification.tier = "LOW PRIORITY" := by
  refine ⟨fun s => ⟨⟨fun he => ?_, classify_facility_of_whale⟩,
      ⟨fun he => ?_, fun h => classify_facility_of_standard h.1 h.2⟩,
      ⟨fun he => ?_, classify_facility_of_low⟩⟩, ?_, ?_, ?_, rfl, rfl, rfl, rfl, rfl, rfl⟩
  · by_contra hlt
    rcases le_or_lt 50 s with h50 | h50
    · exact whale_ne_standard
        (he.symm.trans (classify_facility_of_standard h50 (not_le.mp hlt)))
    · exact whale_ne_low (he.symm.trans (classify_facility_of_low h50))
  · constructor
    · by_contra h50
      exact standard_ne_low
        (he.symm.trans (classify_facility_of_low (not_le.mp h50))).symm.symm
    · by_contra h80
      exact whale_ne_standard
        ((classify_facility_of_whale (not_lt.mp h80)).symm.trans he).symm.symm
  · by_contra h50
    rcases le_or_lt 80 s with h80 | h80
    · exact whale_ne_low (classify_facility_of_whale h80 ▸ he)
    · exact standard_ne_low
        (classify_facility_of_standard (not_lt.mp h50) h80 ▸ he)
  · exact classify_facility_of_whale le_rfl
  · exact classify_facility_of_standard (by norm_num) (by norm_num)
  · exact classify_facility_of_low (by norm_num)

/-- C3: for `x ≥ 0` and `b > 0` the normalization `min((x/b)*100, 100)` lies
in `[0, 100]`; and for measurements with `paved_area_pct ∈ [0, 100]`,
`trailer_count ≥ 0`, `gate_count ≥ 0`, the score returned by
`calculate_velocity_score` under the default weights lies in `[0, 100]`. -/
theorem C3_score_bounds :
    (∀ x b : ℚ, 0 ≤ x → 0 < b → 0 ≤ normalize x b ∧ normalize x b ≤ 100) ∧
    (∀ p t g : ℚ, 0 ≤ p → p ≤ 100 → 0 ≤ t → 0 ≤ g →
      0 ≤ calculate_velocity_score p t g ∧ calculate_velocity_score p t g ≤ 100) := by
  refine ⟨fun x b hx hb => ⟨normalize_nonneg hx hb, normalize_le_100 x b⟩,
    fun p t g hp0 hp100 ht hg => ?_⟩
  rw [calculate_velocity_score_eq]
  have hnt0 : 0 ≤ normalize t MAX_TRAILER_BENCHMARK :=
    normalize_nonneg ht (by norm_num [MAX_TRAILER_BENCHMARK])
  have hng0 : 0 ≤ normalize g MAX_GATE_BENCHMARK :=
    normalize_nonneg hg (by norm_num [MAX_GATE_BENCHMARK])
  have hnt1 := normalize_le_100 t MAX_TRAILER_BENCHMARK
  have hng1 := normalize_le_100 g MAX_GATE_BENCHMARK
  constructor
  · have := mul_nonneg (by norm_num [ALPHA] : (0:ℚ) ≤ ALPHA) hp0
    have := mul_nonneg (by norm_num [BETA] : (0:ℚ) ≤ BETA) hnt0
    have := mul_nonneg (by norm_num [GAMMA] : (0:ℚ) ≤ GAMMA) hng0
    linarith
  · have h1 : ALPHA * p ≤ ALPHA * 100 :=
      mul_le_mul_of_nonneg_left hp100 (by norm_num [ALPHA])
    have h2 : BETA * normalize t MAX_TRAILER_BENCHMARK ≤ BETA * 100 :=
      mul_le_mul_of_nonneg_left hnt1 (by norm_num [BETA])
    have h3 : GAMMA * normalize g MAX_GATE_BENCHMARK ≤ GAMMA * 100 :=
      mul_le_mul_of_nonneg_left hng1 (by norm_num [GAMMA])
    have : ALPHA * 100 + BETA * 100 + GAMMA * 100 = (100:ℚ) := by
      norm_num [ALPHA, BETA, GAMMA]
    linarith

/-- Witness for C3 at `x = 150, b = 300` and `(p, t, g) = (85, 180, 3)`. -/
theorem C3_score_bounds_witness :
    (0 ≤ normalize 150 300 ∧ normalize 150 300 ≤ 100) ∧
    (0 ≤ calculate_velocity_score 85 180 3 ∧ calculate_velocity_score 85 180 3 ≤ 100) :=
  ⟨C3_score_bounds.1 150 300 (by norm_num) (by norm_num),
   C3_score_bounds.2 85 180 3 (by norm_num) (by norm_num) (by norm_num) (by norm_num)⟩

/-- C4: `calculate_velocity_score` is monotonically non-decreasing in each of
its three arguments separately. -/
theorem C4_monotonicity :
    (∀ p p' t g : ℚ, p ≤ p' →
      calculate_velocity_score p t g ≤ calculate_velocity_score p' t g) ∧
    (∀ p t t' g : ℚ, t ≤ t' →
      calculate_velocity_score p t g ≤ calculate_velocity_score p t' g) ∧
    (∀ p t g g' : ℚ, g ≤ g' →
      calculate_velocity_score p t g ≤ calculate_velocity_score p t g') := by
  have hnorm : ∀ x x' b : ℚ, 0 < b → x ≤ x' → normalize x b ≤ normalize x' b := by
    intro x x' b hb h
    exact min_le_min (by gcongr) le_rfl
  refine ⟨fun p p' t g h => ?_, fun p t t' g h => ?_, fun p t g g' h => ?_⟩ <;>
    rw [calculate_velocity_score_eq, calculate_velocity_score_eq]
  · have : ALPHA * p ≤ ALPHA * p' := mul_le_mul_of_nonneg_left h (by norm_num [ALPHA])
    linarith
  · have : BETA * normalize t MAX_TRAILER_BENCHMARK ≤
        BETA * normalize t' MAX_TRAILER_BENCHMARK :=
      mul_le_mul_of_nonneg_left
        (hnorm t t' _ (by norm_num [MAX_TRAILER_BENCHMARK]) h) (by norm_num [BETA])
    linarith
  · have : GAMMA * normalize g MAX_GATE_BENCHMARK ≤
        GAMMA * normalize g' MAX_GATE_BENCHMARK :=
      mul_le_mul_of_nonneg_left
        (hnorm g g' _ (by norm_num [MAX_GATE_BENCHMARK]) h) (by norm_num [GAMMA])
    linarith

/-- Witness for C4: increasing each dimension at a concrete input. -/
theorem C4_monotonicity_witness :
    calculate_velocity_score 40 180 3 ≤ calculate_velocity_score 85 180 3 ∧
    calculate_velocity_score 85 100 3 ≤ calculate_velocity_score 85 180 3 ∧
    calculate_velocity_score 85 180 1 ≤ calculate_velocity_score 85 180 3 :=
  ⟨C4_monotonicity.1 40 85 180 3 (by norm_num),
   C4_monotonicity.2.1 85 100 180 3 (by norm_num),
   C4_monotonicity.2.2 85 180 1 3 (by norm_num)⟩

/-- C5: with default weights and benchmarks, the score of `(0, 0, 0)` is `0`,
the score of `(100, 300, 5)` is `100`, and the score of `(85, 180, 3)` is
`72.5` (normalized trailers `60`, normalized gates `60`, contributions
`42.5 + 18 + 12`), which `classify_facility` classifies as STANDARD. -/
theorem C5_boundary_and_example_values :
    calculate_velocity_score 0 0 0 = 0 ∧
    calculate_velocity_score 100 300 5 = 100 ∧
    normalize 180 MAX_TRAILER_BENCHMARK = 60 ∧
    normalize 3 MAX_GATE_BENCHMARK = 60 ∧
    ALPHA * 85 = 42.5 ∧ BETA * 60 = 18 ∧ GAMMA * 60 = 12 ∧
    calculate_velocity_score 85 180 3 = 72.5 ∧
    classify_facility (calculate_velocity_score 85 180 3) = standardClassification := by
  have h : calculate_velocity_score 85 180 3 = 72.5 := by
    norm_num [calculate_velocity_score, ALPHA, BETA, GAMMA, MAX_TRAILER_BENCHMARK,
      MAX_GATE_BENCHMARK]
  refine ⟨by norm_num [calculate_velocity_score, ALPHA, BETA, GAMMA,
      MAX_TRAILER_BENCHMARK, MAX_GATE_BENCHMARK],
    by norm_num [calculate_velocity_score, ALPHA, BETA, GAMMA,
      MAX_TRAILER_BENCHMARK, MAX_GATE_BENCHMARK],
    by norm_num [normalize, MAX_TRAILER_BENCHMARK],
    by norm_num [normalize, MAX_GATE_BENCHMARK],
    by norm_num [ALPHA], by norm_num [BETA], by norm_num [GAMMA], h, ?_⟩
  rw [h]
  exact classify_facility_of_standard (by norm_num) (by norm_num)

/-- C6 counterexample: at `paved_area_pct = 0.03` the `contribution` field of
the paved-area component is `round(0.5 * 0.03, 1) = 0.0`, which differs from
the exact product `0.5 * 0.03 = 0.015`, so the contribution is not equal to
the weight times the normalized value. -/
theorem C6_contribution_counterexample :
    (explain_score_breakdown (3/100) 0 0 0).paved_area.contribution ≠ ALPHA * (3/100) := by
  have h : (explain_score_breakdown (3/100) 0 0 0).paved_area.contribution = 0 := by
    norm_num [explain_score_breakdown, pyRound1, pyRoundInt, ALPHA]
  rw [h, ALPHA]
  norm_num

/-- C6 amended: `explain_score_breakdown` maps each of the three dimensions
to a contribution equal to its weight times its normalized value (recomputed
with the same formulas as `calculate_velocity_score`), rounded to one decimal
place as in the source; each dimension gets a static interpretive bucket with
thresholds paved `≥90 / ≥70 / ≥50 / else`, trailers `≥200 / ≥100 / ≥50 /
else`, gates `≥4 / ≥2 / else`; and no cross-check is performed against the
caller-supplied `score` argument: the components are independent of it and
`total_score` is just the rounded `score` argument. -/
theorem C6_breakdown_amended (p t g s s' : ℚ) :
    (explain_score_breakdown p t g s).total_score = pyRound1 s ∧
    (explain_score_breakdown p t g s).paved_area.raw_value = p ∧
    (explain_score_breakdown p t g s).paved_area.contribution = pyRound1 (ALPHA * p) ∧
    (explain_score_breakdown p t g s).trailer_count.normalized =
      normalize t MAX_TRAILER_BENCHMARK ∧
    (explain_score_breakdown p t g s).trailer_count.contribution =
      pyRound1 (BETA * normalize t MAX_TRAILER_BENCHMARK) ∧
    (explain_score_breakdown p t g s).gate_nodes.normalized =
      normalize g MAX_GATE_BENCHMARK ∧
    (explain_score_breakdown p t g s).gate_nodes.contribution =
      pyRound1 (GAMMA * normalize g MAX_GATE_BENCHMARK) ∧
    (explain_score_breakdown p t g s).paved_area.interpretation =
      (if 90 ≤ p then "Mega DC - Maximum land utilization, high complexity"
       else if 70 ≤ p then "Standard DC - Good operational footprint"
       else if 50 ≤ p then "Mixed-use - Room for optimization"
       else "Limited paved area - May be office-heavy") ∧
    (explain_score_breakdown p t g s).trailer_count.interpretation =
      (if 200 ≤ t then "WHALE territory - Major distribution hub"
       else if 100 ≤ t then "High-volume facility - Significant throughput"
       else if 50 ≤ t then "Regional depot - Moderate activity"
       else "Small operation - Limited scale") ∧
    (explain_score_breakdown p t g s).gate_nodes.interpretation =
      (if 4 ≤ g then "Complex multi-flow - High orchestration needs"
       else if 2 ≤ g then "Standard facility - Some traffic separation"
       else "Single entry point - Simple flow") ∧
    (explain_score_breakdown p t g s').paved_area =
      (explain_score_breakdown p t g s).paved_area ∧
    (explain_score_breakdown p t g s').trailer_count =
      (explain_score_breakdown p t g s).trailer_count ∧
    (explain_score_breakdown p t g s').gate_nodes =
      (explain_score_breakdown p t g s).gate_nodes :=
  ⟨rfl, rfl, rfl, rfl, rfl, rfl, rfl, rfl, rfl, rfl, rfl, rfl, rfl⟩

lemma sort_le_trans (a b c : BatchItem) :
    decide (b.score ≤ a.score) → decide (c.score ≤ b.score) →
      decide (c.score ≤ a.score) := by
  simp only [decide_eq_true_eq]
  exact fun h1 h2 => le_trans h2 h1

lemma sort_le_total (a b : BatchItem) :
    decide (b.score ≤ a.score) || decide (a.score ≤ b.score) := by
  simpa using le_total b.score a.score

/-- C7: the sorted batch report is a permutation of the input results, is
ordered by score descending, and facilities with equal scores keep their
original input order (for every score value, filtering the output to that
score gives the same list, in the same order, as filtering the input). -/
theorem C7_batch_sort_descending_stable (rs : List BatchItem) :
    (sort_results rs).Pairwise (fun a b => b.score ≤ a.score) ∧
    (sort_results rs).Perm rs ∧
    ∀ q : ℚ, (sort_results rs).filter (fun r => decide (r.score = q)) =
      rs.filter (fun r => decide (r.score = q)) := by
  refine ⟨?_, List.mergeSort_perm rs _, fun q => ?_⟩
  · have h := List.sorted_mergeSort sort_le_trans sort_le_total rs
    exact h.imp (by intro a b hab; simpa using hab)
  · have hpair : (rs.filter (fun r => decide (r.score = q))).Pairwise
        (fun a b : BatchItem => decide (b.score ≤ a.score) = true) := by
      apply List.pairwise_of_forall_mem_list
      intro a ha b hb
      have ha' : a.score = q := by simpa using List.of_mem_filter ha
      have hb' : b.score = q := by simpa using List.of_mem_filter hb
      simp [ha', hb']
    have h1 : List.Sublist (rs.filter (fun r => decide (r.score = q))) (sort_results rs) :=
      List.sublist_mergeSort sort_le_trans sort_le_total hpair (List.filter_sublist rs)
    have h2 : List.Sublist (rs.filter (fun r => decide (r.score = q)))
        ((sort_results rs).filter (fun r => decide (r.score = q))) := by
      have h3 := h1.filter (fun r => decide (r.score = q))
      rwa [List.filter_filter, (by simp : ∀ l : List BatchItem,
        (l.filter fun r => decide (r.score = q) && decide (r.score = q)) =
          l.filter fun r => decide (r.score = q)) rs] at h3
    have hlen : (rs.filter (fun r => decide (r.score = q))).length =
        ((sort_results rs).filter (fun r => decide (r.score = q))).length :=
      (((List.mergeSort_perm rs _).filter _).length_eq).symm
    exact (h2.eq_of_length hlen).symm

/-- C8: `calculate_velocity_score` is deterministic and pure: two calls with
identical `paved_area_pct`, `trailer_count` and `gate_nodes` (and the same
fixed weights/benchmarks) return identical values; the embedding is a pure
function of its arguments, with no hidden state. -/
theorem C8_deterministic (p₁ t₁ g₁ p₂ t₂ g₂ : ℚ)
    (hp : p₁ = p₂) (ht : t₁ = t₂) (hg : g₁ = g₂) :
    calculate_velocity_score p₁ t₁ g₁ = calculate_velocity_score p₂ t₂ g₂ := by
  rw [hp, ht, hg]

/-- Witness for C8 at `(85, 180, 3)`. -/
theorem C8_deterministic_witness :
    calculate_velocity_score 85 180 3 = calculate_velocity_score 85 180 3 :=
  C8_deterministic 85 180 3 85 180 3 rfl rfl rfl

/-- C9: the engine validates nothing and raises no error: on every rational
input (including negative counts and out-of-range paved percentages) the
embedded `classify_facility`, `explain_score_breakdown` and
`calculate_velocity_score` are total and return a result; a negative
`trailer_count` escapes the upper-only clamp and yields a negative trailer
contribution that propagates into the score. -/
theorem C9_no_validation_totality (p t g s : ℚ) :
    (classify_facility s = whaleClassification ∨
      classify_facility s = standardClassification ∨
      classify_facility s = lowClassification) ∧
    (explain_score_breakdown p t g s).total_score = pyRound1 s ∧
    (t < 0 →
      normalize t MAX_TRAILER_BENCHMARK = (t / MAX_TRAILER_BENCHMARK) * 100 ∧
      BETA * normalize t MAX_TRAILER_BENCHMARK < 0 ∧
      calculate_velocity_score p t g =
        ALPHA * p + BETA * ((t / MAX_TRAILER_BENCHMARK) * 100) +
          GAMMA * normalize g MAX_GATE_BENCHMARK) := by
  refine ⟨?_, rfl, fun hneg => ?_⟩
  · unfold classify_facility
    split_ifs with h1 h2
    · exact Or.inl rfl
    · exact Or.inr (Or.inl rfl)
    · exact Or.inr (Or.inr rfl)
  · have hlt : (t / MAX_TRAILER_BENCHMARK) * 100 < 0 := by
      rw [MAX_TRAILER_BENCHMARK]
      have : t / 300 < 0 := div_neg_of_neg_of_pos hneg (by norm_num)
      linarith
    have hmin : normalize t MAX_TRAILER_BENCHMARK = (t / MAX_TRAILER_BENCHMARK) * 100 :=
      min_eq_left (le_of_lt (hlt.trans_le (by norm_num)))
    refine ⟨hmin, ?_, ?_⟩
    · rw [hmin]
      exact mul_neg_of_pos_of_neg (by norm_num [BETA]) hlt
    · rw [calculate_velocity_score_eq, hmin]

/-- Witness for C9 at `(p, t, g, s) = (10, -3, 0, 10)`: the negative trailer
count `-3` yields a negative trailer contribution. -/
theorem C9_no_validation_totality_witness :
    BETA * normalize (-3) MAX_TRAILER_BENCHMARK < 0 :=
  ((C9_no_validation_totality 10 (-3) 0 10).2.2 (by norm_num)).2.1

/-- C10: every reported result carries the raw score rounded to one decimal
place next to a classification computed from the unrounded score; at raw
score `79.96` (from measurements `paved = 59.92, trailers = 300, gates = 5`)
the report shows score `80.0` together with the STANDARD classification, and
the batch summary, which buckets the rounded scores, counts this facility as
a whale (and not as standard), disagreeing with its per-item classification
field. -/
theorem C10_rounding_classification_mismatch :
    (∀ (nm : String) (p t g : ℚ),
      (run_dragnet_report p t g).score =
        pyRound1 (calculate_velocity_score p t g) ∧
      (run_dragnet_report p t g).classification =
        classify_facility (calculate_velocity_score p t g) ∧
      (get_score_response p t g).1 = pyRound1 (calculate_velocity_score p t g) ∧
      (get_score_response p t g).2 =
        (classify_facility (calculate_velocity_score p t g)).tier ∧
      (batch_item nm p t g).score = pyRound1 (calculate_velocity_score p t g) ∧
      (batch_item nm p t g).classification =
        (classify_facility (calculate_velocity_score p t g)).tier) ∧
    calculate_velocity_score (1498/25) 300 5 = 79.96 ∧
    pyRound1 79.96 = 80 ∧
    (run_dragnet_report (1498/25) 300 5).score = 80 ∧
    (run_dragnet_report (1498/25) 300 5).classification = standardClassification ∧
    (batch_item "Facility A" (1498/25) 300 5).score = 80 ∧
    (batch_item "Facility A" (1498/25) 300 5).classification = "STANDARD PROSPECT" ∧
    (batch_summary [batch_item "Facility A" (1498/25) 300 5]).1 = 1 ∧
    (batch_summary [batch_item "Facility A" (1498/25) 300 5]).2.1 = 0 := by
  have hscore : calculate_velocity_score (1498/25) 300 5 = 79.96 := by
    norm_num [calculate_velocity_score, ALPHA, BETA, GAMMA, MAX_TRAILER_BENCHMARK,
      MAX_GATE_BENCHMARK]
  have hround : pyRound1 79.96 = 80 := by
    norm_num [pyRound1, pyRoundInt]
  have hclass : classify_facility (calculate_velocity_score (1498/25) 300 5) =
      standardClassification := by
    rw [hscore]
    exact classify_facility_of_standard (by norm_num) (by norm_num)
  have hitem : (batch_item "Facility A" (1498/25) 300 5).score = 80 := by
    show pyRound1 (calculate_velocity_score (1498/25) 300 5) = 80
    rw [hscore, hround]
  refine ⟨fun nm p t g => ⟨rfl, rfl, rfl, rfl, rfl, rfl⟩,
    hscore, hround, ?_, ?_, hitem, ?_, ?_, ?_⟩
  · show pyRound1 (calculate_velocity_score (1498/25) 300 5) = 80
    rw [hscore, hround]
  · exact hclass
  · show (classify_facility (calculate_velocity_score (1498/25) 300 5)).tier =
      "STANDARD PROSPECT"
    rw [hclass]
    rfl
  · show (List.filter _ [batch_item "Facility A" (1498/25) 300 5]).length = 1
    rw [List.filter_cons, List.filter_nil]
    have : decide (80 ≤ (batch_item "Facility A" (1498/25) 300 5).score) = true := by
      rw [hitem]; norm_num
    rw [if_pos this]
    rfl
  · show (List.filter _ [batch_item "Facility A" (1498/25) 300 5]).length = 0
    rw [List.filter_cons, List.filter_nil]
    have : decide (50 ≤ (batch_item "Facility A" (1498/25) 300 5).score ∧
        (batch_item "Facility A" (1498/25) 300 5).score < 80) = false := by
      rw [hitem]; norm_num
    rw [if_neg (by simp [this])]
    rfl

end Dragnet
